import Mathlib

/-!
Verification of the Note Companion asynchronous file-processing pipeline
against its natural-language specification.

The definitions below are a shallow embedding of

* the batch worker route (`processSingleFileRecord`, the claim/commit loop
  and the run summary) from `app/api/process-pending-uploads/route.ts`, and
* the mobile client's local queue and status poller
  (`processSyncQueue`, `generateTextPreview`, `generatePreview`,
  `pollForResults`) from the mobile `file-handler` module.

External collaborators (the R2 object store, the OpenAI calls, the database
writes, the device file system and the network) are modelled as explicit
environment records of functions and outcome values, so every definition
stays executable and the control flow of the source is reproduced exactly.
-/

namespace NoteCompanion

/-! ### String helpers mirroring the JavaScript primitives used by the code -/

/-- JS truthiness test for an optional string field: `null`, `undefined`
and `""` are falsy. -/
def optStrFalsy : Option String → Bool
  | none => true
  | some s => s == ""

/-- JS `a || defaultValue` for an optional string (empty string is falsy). -/
def strOrDefault (o : Option String) (d : String) : String :=
  match o with
  | none => d
  | some s => if s == "" then d else s

/-- JS `String.prototype.startsWith`. -/
def strStartsWith (s pre : String) : Bool :=
  List.isPrefixOf pre.data s.data

/-- JS `String.prototype.toLowerCase`, character by character. -/
def strToLower (s : String) : String :=
  String.mk (s.data.map Char.toLower)

/-- JS `String.prototype.trim`: strip whitespace from both ends. -/
def strTrim (s : String) : String :=
  String.mk (((s.data.dropWhile Char.isWhitespace).reverse.dropWhile
    Char.isWhitespace).reverse)

/-- Does `needle` occur as a contiguous run inside `hay`? -/
def hasSubstr (needle : List Char) : List Char → Bool
  | [] => needle.isEmpty
  | c :: t => List.isPrefixOf needle (c :: t) || hasSubstr needle t

/-- JS `String.prototype.includes`. -/
def strContains (s sub : String) : Bool :=
  hasSubstr sub.data s.data

/-- First index at or after the current position where `needle` occurs,
index counted from `i`. -/
def firstOccurrence (needle : List Char) : List Char → Nat → Option Nat
  | [], i => if needle.isEmpty then some i else none
  | c :: t, i =>
    if List.isPrefixOf needle (c :: t) then some i
    else firstOccurrence needle t (i + 1)

/-- JS `String.prototype.indexOf(needle, start)` returning `none` for `-1`. -/
def indexOfFrom (hay needle : List Char) (start : Nat) : Option Nat :=
  (firstOccurrence needle (hay.drop start) 0).map (· + start)

/-! ### Data model: the upload record (drizzle `uploadedFiles` row) -/

/-- One row of the upload-record store, with the fields the worker route
reads and writes.  Timestamps are abstract ticks. -/
structure UploadedFile where
  id : Nat
  userId : String
  blobUrl : String
  r2Key : Option String
  fileType : String
  processType : Option String
  originalName : String
  status : String
  textContent : Option String
  generatedImageUrl : Option String
  tokensUsed : Nat
  error : Option String
  createdAt : Nat
  updatedAt : Nat
deriving DecidableEq

/-- The result tuple produced by `processSingleFileRecord`. -/
structure ExtractResult where
  status : String
  textContent : Option String
  generatedImageUrl : Option String
  tokensUsed : Nat
  error : Option String
deriving DecidableEq

/-- External collaborators of the worker.  `r2Download` returns `none` when
`downloadFromR2` would throw; `utf8Decode` is Node's
`Buffer.prototype.toString("utf-8")`; `ocrCall` abstracts the
`generateObject` call (error message, or markdown plus optional reported
token usage); `diagramCall` abstracts steps 1-13 of `processMagicDiagram`
(download, temp file, `images.edit`, re-upload, URL construction), an
`Except.error` carrying the message the catch block would extract. -/
structure WorkerEnv where
  r2Download : String → Option (List Nat)
  utf8Decode : List Nat → String
  ocrCall : String → Except String (String × Option Nat)
  diagramCall : String → String → String → Except String String

/-! ### Content extractor strategies -/

/-- Result shape of `processMagicDiagram`. -/
structure MagicResult where
  generatedImageUrl : String
  tokensUsed : Nat
  error : Option String
deriving DecidableEq

/-- `processMagicDiagram`: any failure inside the body is caught and turned
into an error result with the fixed message prefix; success returns the new
public URL and the fixed placeholder cost of 5000 tokens. -/
def processMagicDiagram (env : WorkerEnv) (r2Key originalFileName userId : String) :
    MagicResult :=
  match env.diagramCall r2Key originalFileName userId with
  | .error msg =>
    { generatedImageUrl := "", tokensUsed := 0,
      error := some ("Error generating diagram: " ++ msg) }
  | .ok url => { generatedImageUrl := url, tokensUsed := 5000, error := none }

/-- `processImageWithGPT4one`: on success the markdown text and the reported
usage (or `ceil(chars/4)` when usage is absent); any exception is caught and
returned as a sentinel error string with zero tokens. -/
def processImageWithGPT4one (env : WorkerEnv) (imageUrl : String) : String × Nat :=
  match env.ocrCall imageUrl with
  | .error msg => ("Error processing image OCR: " ++ msg, 0)
  | .ok (markdown, usage) =>
    let textContent := markdown
    let tokensUsed :=
      match usage with
      | some u => u
      | none => (textContent.length + 3) / 4
    (textContent, tokensUsed)

/-- Lines 274-306 of the worker route: take the stored `r2Key`, otherwise
derive it from `blobUrl` by locating the `uploads` path segment; a
derivation failure or a still-missing key produces the corresponding error
message. -/
def deriveR2Key (f : UploadedFile) : Except String String :=
  let attempt : Except String (Option String) :=
    if optStrFalsy f.r2Key then
      let urlParts := f.blobUrl.splitOn "/"
      match urlParts.findIdx? (fun part => part == "uploads") with
      | some idx =>
        if idx < urlParts.length - 1 then
          .ok (some (String.intercalate "/" (urlParts.drop idx)))
        else
          .error ("Could not determine R2 key from blobUrl: " ++ f.blobUrl)
      | none => .error ("Could not determine R2 key from blobUrl: " ++ f.blobUrl)
    else .ok f.r2Key
  match attempt with
  | .error e => .error e
  | .ok k =>
    if optStrFalsy k then .error ("Missing R2 key for file ID " ++ toString f.id)
    else .ok (k.getD "")

/-- `fileRecord.processType || "standard-ocr"`. -/
def effProcessType (f : UploadedFile) : String :=
  strOrDefault f.processType "standard-ocr"

/-- `fileRecord.fileType.toLowerCase()`. -/
def effFileType (f : UploadedFile) : String :=
  strToLower f.fileType

/-- Dispatch condition of the magic-diagram branch. -/
def isMagicBranch (f : UploadedFile) : Bool :=
  effProcessType f == "magic-diagram" && strStartsWith (effFileType f) "image/"

/-- Dispatch condition of the standard-OCR branch. -/
def isOcrBranch (f : UploadedFile) : Bool :=
  effProcessType f == "standard-ocr" && strStartsWith (effFileType f) "image/"

/-- Dispatch condition of the PDF branch. -/
def isPdfBranch (f : UploadedFile) : Bool :=
  effFileType f == "application/pdf" || strContains (effFileType f) "pdf"

/-- Dispatch condition of the plain-text branch. -/
def isTextBranch (f : UploadedFile) : Bool :=
  effFileType f == "text/plain" || effFileType f == "text/markdown"

/-- The try block of `processSingleFileRecord` (lines 309-390): returns the
quadruple `(textContent, generatedImageUrl, tokensUsed, processingError)`
exactly as the mutable locals stand when control reaches line 392; an
exception thrown inside the block is represented by the values the catch
clause assigns. -/
def dispatchExtract (env : WorkerEnv) (f : UploadedFile) (r2Key : String) :
    Option String × Option String × Nat × Option String :=
  if isMagicBranch f then
    let result := processMagicDiagram env r2Key f.originalName f.userId
    match result.error with
    | some e => (some ("[Error generating diagram: " ++ e ++ "]"), none, 0, some e)
    | none =>
      (some ("[Generated Diagram Image](" ++ result.generatedImageUrl ++ ")"),
       some result.generatedImageUrl, result.tokensUsed, none)
  else if isOcrBranch f then
    if f.blobUrl == "" then
      (none, none, 0,
       some ("Missing blobUrl for OCR processing of file ID " ++ toString f.id))
    else
      let result := processImageWithGPT4one env f.blobUrl
      if strStartsWith result.1 "Error processing image OCR" then
        (none, none, result.2, some result.1)
      else if strTrim result.1 == "" then
        (some "[OCR completed, but no text extracted]", none, result.2, none)
      else (some result.1, none, result.2, none)
  else if isPdfBranch f then
    (some "[PDF Content - Processing Pending Implementation]", none, 0,
     some "PDF processing not yet implemented.")
  else if isTextBranch f then
    match env.r2Download r2Key with
    | some bytes => (some (env.utf8Decode bytes), none, 0, none)
    | none => (none, none, 0, some ("Failed to download file from R2: " ++ r2Key))
  else
    (some ("[Unsupported: " ++ effFileType f ++ "]"), none, 0,
     some ("Unsupported file type/processType: " ++ effFileType f ++ " / " ++
       effProcessType f))

/-- Lines 392-402: derive the final status and apply the bracketed
processing-error message to `textContent` when an error occurred. -/
def finalizeResult (q : Option String × Option String × Nat × Option String) :
    ExtractResult :=
  match q.2.2.2 with
  | some e =>
    { status := "error", textContent := some ("[Processing Error: " ++ e ++ "]"),
      generatedImageUrl := q.2.1, tokensUsed := q.2.2.1, error := some e }
  | none =>
    { status := "completed", textContent := q.1,
      generatedImageUrl := q.2.1, tokensUsed := q.2.2.1, error := none }

/-- `processSingleFileRecord`: key derivation, strategy dispatch and the
final result tuple.  Total: every failure path of the source is represented
by a value. -/
def processSingleFileRecord (env : WorkerEnv) (f : UploadedFile) : ExtractResult :=
  match deriveR2Key f with
  | .error e =>
    { status := "error", textContent := none, generatedImageUrl := none,
      tokensUsed := 0, error := some e }
  | .ok r2Key => finalizeResult (dispatchExtract env f r2Key)

/-- Does the strategy the record dispatches to, given the derived key,
genuinely fail (throw, or report a strategy-level error)?  Returns the
failure message.  This mirrors the dispatch of `dispatchExtract`; it is
`none` on every success path. -/
def strategyFailureBody (env : WorkerEnv) (f : UploadedFile) (r2Key : String) :
    Option String :=
  if isMagicBranch f then
    match env.diagramCall r2Key f.originalName f.userId with
    | .error msg => some ("Error generating diagram: " ++ msg)
    | .ok _ => none
  else if isOcrBranch f then
    if f.blobUrl == "" then
      some ("Missing blobUrl for OCR processing of file ID " ++ toString f.id)
    else
      match env.ocrCall f.blobUrl with
      | .error msg => some ("Error processing image OCR: " ++ msg)
      | .ok _ => none
  else if isPdfBranch f then some "PDF processing not yet implemented."
  else if isTextBranch f then
    match env.r2Download r2Key with
    | some _ => none
    | none => some ("Failed to download file from R2: " ++ r2Key)
  else
    some ("Unsupported file type/processType: " ++ effFileType f ++ " / " ++
      effProcessType f)

/-- Strategy-level failure of a record: `none` when the key cannot even be
derived (the strategy never runs). -/
def strategyFailure (env : WorkerEnv) (f : UploadedFile) : Option String :=
  match deriveR2Key f with
  | .error _ => none
  | .ok r2Key => strategyFailureBody env f r2Key

/-! ### Batch worker loop -/

/-- Which database and metering operations throw during one record's loop
iteration.  `claimFailure`/`commitFailure` carry the thrown message (the
fallback write embeds it); `meterFailure` is the usage-metering call
throwing; `fallbackFailure` is the best-effort error write itself failing. -/
structure DbBehavior where
  claimFailure : Option String
  commitFailure : Option String
  meterFailure : Bool
  fallbackFailure : Bool

/-- Lines 475-487: set a non-`processing` record to `processing`, bump
`updatedAt` and clear `error`; an already-`processing` record is left
untouched. -/
def claimStep (now : Nat) (f : UploadedFile) : UploadedFile :=
  if f.status ≠ "processing" then
    { f with status := "processing", updatedAt := now, error := none }
  else f

/-- Lines 492-503: commit the extraction result to the record. -/
def commitStep (now : Nat) (r : ExtractResult) (f : UploadedFile) : UploadedFile :=
  { f with
    status := r.status, textContent := r.textContent,
    generatedImageUrl := r.generatedImageUrl, tokensUsed := r.tokensUsed,
    error := r.error, updatedAt := now }

/-- Lines 536-549: the best-effort fallback write after a critical loop
error. -/
def fallbackStep (now : Nat) (msg : String) (f : UploadedFile) : UploadedFile :=
  { f with
    status := "error", error := some ("Processing Loop Error: " ++ msg),
    updatedAt := now }

/-- What one loop iteration produced: the record's state in the store after
the iteration, the metering invocations issued, and the contribution to the
run counters. -/
structure RecordOutcome where
  record : UploadedFile
  meterCalls : List (String × Nat)
  succeeded : Nat
  errored : Nat
deriving DecidableEq

/-- One iteration of the worker loop (lines 470-557) over a fetched record:
claim, extract, commit, meter, count — with the catch clause's fallback
error write.  The metering call is recorded in `meterCalls` whether or not
it throws, because the catch at lines 517-522 only logs and the record was
already committed. -/
def processLoopBody (env : WorkerEnv) (db : DbBehavior) (now : Nat)
    (f : UploadedFile) : RecordOutcome :=
  if f.status ≠ "processing" ∧ (db.claimFailure).isSome then
    { record := if db.fallbackFailure then f
        else fallbackStep now ((db.claimFailure).getD "") f,
      meterCalls := [], succeeded := 0, errored := 1 }
  else
    let f1 := claimStep now f
    let result := processSingleFileRecord env f
    match db.commitFailure with
    | some msg =>
      { record := if db.fallbackFailure then f1 else fallbackStep now msg f1,
        meterCalls := [], succeeded := 0, errored := 1 }
    | none =>
      let f2 := commitStep now result f1
      if result.status = "completed" ∧ 0 < result.tokensUsed then
        { record := f2, meterCalls := [(f.userId, result.tokensUsed)],
          succeeded := 1, errored := 0 }
      else if result.status = "error" then
        { record := f2, meterCalls := [], succeeded := 0, errored := 1 }
      else
        { record := f2, meterCalls := [], succeeded := 1, errored := 0 }

/-- The run summary the worker reports (`Attempted`, `Succeeded`, `Errors`)
together with the records' final states and all metering invocations. -/
structure RunSummary where
  attempted : Nat
  succeeded : Nat
  errored : Nat
  records : List UploadedFile
  meterCalls : List (String × Nat)
deriving DecidableEq

/-- One worker pass over the fetched batch, sequential as in the source;
`dbOf` gives each record's database behaviour by id. -/
def runWorkerPass (env : WorkerEnv) (dbOf : Nat → DbBehavior) (now : Nat)
    (files : List UploadedFile) : RunSummary :=
  let outs := files.map (fun f => processLoopBody env (dbOf f.id) now f)
  { attempted := files.length,
    succeeded := (outs.map RecordOutcome.succeeded).sum,
    errored := (outs.map RecordOutcome.errored).sum,
    records := outs.map RecordOutcome.record,
    meterCalls := (outs.map RecordOutcome.meterCalls).flatten }

/-! ### Client text preview (`generateTextPreview`, `generatePreview`) -/

/-- Where `generateTextPreview` cuts an over-long text: search for the
paragraph and sentence break markers starting at half the limit, keep the
positions strictly inside the limit and cut just past the furthest one, or
hard-cut at the limit when none is found. -/
def previewCut (text : List Char) (maxLength : Nat) : Nat :=
  let half := maxLength / 2
  let candidates :=
    [indexOfFrom text "\n\n".data half,
     indexOfFrom text ". ".data half,
     indexOfFrom text "? ".data half,
     indexOfFrom text "! ".data half]
  let breakPoints := (candidates.filterMap id).filter (fun p => p < maxLength)
  match breakPoints with
  | [] => maxLength
  | p :: ps => (ps.foldl max p) + 1

/-- `generateTextPreview` over the character list: a text within the limit
is returned whole; otherwise it is cut at `previewCut` and an ellipsis is
appended. -/
def generateTextPreviewL (text : List Char) (maxLength : Nat) : List Char :=
  if text.length ≤ maxLength then text
  else text.take (previewCut text maxLength) ++ "...".data

/-- `generateTextPreview(text, maxLength = 150)`. -/
def generateTextPreview (text : String) (maxLength : Nat := 150) : String :=
  String.mk (generateTextPreviewL text.data maxLength)

/-- The shared item handed to the client handlers. -/
structure SharedFile where
  uri : Option String
  mimeType : Option String
  name : Option String
  text : Option String
deriving DecidableEq

/-- The preview record `generatePreview` resolves to. -/
structure Preview where
  previewText : Option String
  thumbnailUri : Option String
  previewType : String
deriving DecidableEq

/-- `generatePreview`: text content gets a text snippet; images get a copied
thumbnail unless the copy throws (`thumbCopyOk = false`), in which case
control falls through to the generic branch; everything else gets the file
name as preview text. -/
def generatePreview (thumbCopyOk : Bool) (previewsDir localId : String)
    (file : SharedFile) : Preview :=
  if ¬ optStrFalsy file.text then
    { previewText := some (generateTextPreview (file.text.getD "")),
      thumbnailUri := none, previewType := "text" }
  else if ¬ optStrFalsy file.uri ∧ strStartsWith (strOrDefault file.mimeType "") "image/"
      ∧ thumbCopyOk then
    { previewText := none,
      thumbnailUri := some (previewsDir ++ localId ++ "-thumb.jpg"),
      previewType := "image" }
  else
    { previewText := some (strOrDefault file.name "File"),
      thumbnailUri := none, previewType := "other" }

/-! ### Client sync queue (`processSyncQueue`) -/

/-- The slice of the per-item `metadata.json` the sync queue reads and
writes. -/
structure SyncMetadata where
  name : Option String
  mimeType : Option String
  status : String
  error : Option String
  lastAttempt : Option Nat
  serverFileId : Option Nat
  processedTextPreview : Option String
  processedAt : Option Nat
deriving DecidableEq

/-- On-device state the sync queue operates on: the persisted queue file,
each item's directory, metadata, optional `content.txt` and the other
(binary) files in its directory. -/
structure SyncState where
  queueExists : Bool
  queue : List String
  dirExists : String → Bool
  metadata : String → SyncMetadata
  contentTxt : String → Option String
  binFiles : String → List String

/-- What `handleFileProcess` resolves to for a queued item: a final result
whose `status` is `completed` (with server file id and optional processed
text) or `error` (with an optional message), a non-terminal result, or a
thrown exception with its message. -/
inductive SyncOutcome where
  | completed (fileId : Nat) (text : Option String)
  | errorResult (msg : Option String)
  | otherStatus
  | thrown (msg : String)
deriving DecidableEq

/-- Point update of the metadata store. -/
def writeMetadata (s : SyncState) (localId : String) (m : SyncMetadata) :
    SyncState :=
  { s with metadata := fun id => if id = localId then m else s.metadata id }

/-- `processSyncQueue`: one drain step over the head of the queue, returning
the new on-device state and the `hasMore` flag.  The real-time status
callback passed to `handleFileProcess` mutates only the in-memory metadata
object and is never persisted on its own (the write calls in the source all
happen after the final result), so it is not modelled. -/
def processSyncQueue (outcomeOf : String → SyncOutcome) (now : Nat)
    (s : SyncState) : SyncState × Bool :=
  if ¬ s.queueExists then (s, false)
  else
    match s.queue with
    | [] => (s, false)
    | localId :: rest =>
      if ¬ s.dirExists localId then
        ({ s with queue := rest }, rest.length > 0)
      else
        let meta := s.metadata localId
        if meta.status = "completed" then
          ({ s with queue := rest }, rest.length > 0)
        else
          if (s.contentTxt localId).isNone ∧ s.binFiles localId = [] then
            let s1 := writeMetadata s localId
              { meta with status := "error", error := some "Local content file missing" }
            ({ s1 with queue := rest }, rest.length > 0)
          else
            match outcomeOf localId with
            | .completed fid txt =>
              let s1 := writeMetadata s localId
                { meta with
                  status := "completed", serverFileId := some fid,
                  processedTextPreview :=
                    match txt with
                    | some t => some (generateTextPreview t 50)
                    | none => meta.processedTextPreview,
                  processedAt := some now, error := none,
                  lastAttempt := some now }
              ({ s1 with queue := rest }, rest.length > 0)
            | .errorResult msg =>
              let s1 := writeMetadata s localId
                { meta with
                  status := "error",
                  error := some (msg.getD "Unknown processing error"),
                  lastAttempt := some now }
              ({ s1 with queue := rest ++ [localId] },
               (rest ++ [localId]).length > 0)
            | .otherStatus => (s, s.queue.length > 0)
            | .thrown m =>
              let s1 := writeMetadata s localId
                { meta with
                  status := "error", error := some m,
                  lastAttempt := some now }
              ({ s1 with queue := rest ++ [localId] },
               (rest ++ [localId]).length > 0)

/-! ### Client status poller (`pollForResults`) -/

/-- Body of a successful status response. -/
structure StatusBody where
  status : String
  textContent : Option String
  error : Option String
deriving DecidableEq

/-- One network interaction during polling: an HTTP error response with its
status code, a parsed OK response, or a thrown fetch error. -/
inductive PollEvent where
  | httpErr (code : Nat)
  | okBody (body : StatusBody)
  | netErr
deriving DecidableEq

/-- The `UploadResult` the poller resolves to. -/
structure PollOutcome where
  status : String
  textContent : Option String
  error : Option String
  fileId : String
deriving DecidableEq

/-- The timeout result returned when the polling loop exhausts its
attempts. -/
def timeoutResult (fileId : String) : PollOutcome :=
  { status := "error", textContent := none,
    error := some "Timed out waiting for processing results", fileId := fileId }

/-- The error result returned when a fetch exception lands on the final
attempt. -/
def maxAfterErrorResult (fileId : String) : PollOutcome :=
  { status := "error", textContent := none,
    error := some "Max polling attempts reached after error", fileId := fileId }

/-- The `while attempts < maxAttempts` loop of `pollForResults`.  `resp n`
is the n-th request's outcome and the second component of the result counts
requests issued.  Every iteration either returns or increments `attempts`,
so `maxAttempts - attempts` bounds the remaining iterations and is used as
fuel; when the fuel runs out the loop condition is false and the timeout
result is returned, exactly as in the source. -/
def pollLoop (resp : Nat → PollEvent) (fileId : String) (maxAttempts : Nat) :
    Nat → Nat → Nat → PollOutcome × Nat
  | _, reqs, 0 => (timeoutResult fileId, reqs)
  | attempts, reqs, fuel + 1 =>
    if attempts < maxAttempts then
      match resp reqs with
      | .httpErr code =>
        if code = 404 then pollLoop resp fileId maxAttempts (attempts + 1) (reqs + 1) fuel
        else pollLoop resp fileId maxAttempts (attempts + 1) (reqs + 1) fuel
      | .okBody body =>
        if body.status = "completed" ∨ body.status = "error" then
          ({ status := body.status, textContent := body.textContent,
             error := body.error, fileId := fileId }, reqs + 1)
        else pollLoop resp fileId maxAttempts (attempts + 1) (reqs + 1) fuel
      | .netErr =>
        if maxAttempts ≤ attempts + 1 then (maxAfterErrorResult fileId, reqs + 1)
        else pollLoop resp fileId maxAttempts (attempts + 1) (reqs + 1) fuel
    else (timeoutResult fileId, reqs)

/-- `pollForResults(fileId, token, isTextFile, maxAttempts = 30)`: a direct
text upload fetches the final details once without polling; otherwise the
polling loop runs with `attempts = 0`. -/
def pollForResults (resp : Nat → PollEvent) (fileId : String)
    (isTextFile : Bool) (maxAttempts : Nat := 30) : PollOutcome × Nat :=
  if isTextFile then
    match resp 0 with
    | .okBody body =>
      ({ status := if body.status = "" then "completed" else body.status,
         textContent := body.textContent, error := body.error,
         fileId := fileId }, 1)
    | .httpErr _ =>
      ({ status := "error", textContent := none,
         error := some "Failed to get final details for text file",
         fileId := fileId }, 1)
    | .netErr =>
      ({ status := "error", textContent := none,
         error := some "Failed to get final details for text file",
         fileId := fileId }, 1)
  else pollLoop resp fileId maxAttempts 0 0 maxAttempts

/-! ### The spec's terminal-record conditions (section 3 invariant) -/

/-- The record's `textContent` is set. -/
def textSet (r : UploadedFile) : Bool := r.textContent.isSome

/-- The record's `generatedImageUrl` is set. -/
def imageSet (r : UploadedFile) : Bool := r.generatedImageUrl.isSome

/-- Both content fields are null and `error` is set. -/
def nullWithError (r : UploadedFile) : Bool :=
  r.textContent.isNone && r.generatedImageUrl.isNone && r.error.isSome

/-- Exactly one of three conditions holds. -/
def exactlyOneOf (a b c : Bool) : Bool :=
  (a && !b && !c) || (!a && b && !c) || (!a && !b && c)

/-- The record's status is terminal. -/
def terminalStatus (r : UploadedFile) : Bool :=
  r.status == "completed" || r.status == "error"

/-! ### Concrete fixtures used by witnesses and counterexamples -/

/-- Environment in which every external call succeeds. -/
def envOk : WorkerEnv :=
  { r2Download := fun _ => some [104, 105],
    utf8Decode := fun bytes => String.mk (bytes.map Char.ofNat),
    ocrCall := fun _ => .ok ("Extracted text", some 42),
    diagramCall := fun _ _ _ =>
      .ok "https://pub.example/generated/u1/99-ab12-sketch.png" }

/-- Environment in which every external call fails. -/
def envFail : WorkerEnv :=
  { r2Download := fun _ => none,
    utf8Decode := fun bytes => String.mk (bytes.map Char.ofNat),
    ocrCall := fun _ => .error "provider unreachable",
    diagramCall := fun _ _ _ => .error "provider unreachable" }

/-- A pending plain-text record. -/
def fileText : UploadedFile :=
  { id := 7, userId := "u1", blobUrl := "https://pub/uploads/u1/note.txt",
    r2Key := some "uploads/u1/note.txt", fileType := "text/plain",
    processType := none, originalName := "note.txt", status := "pending",
    textContent := none, generatedImageUrl := none, tokensUsed := 0,
    error := none, createdAt := 0, updatedAt := 0 }

/-- A pending magic-diagram image record. -/
def fileDiagram : UploadedFile :=
  { id := 3, userId := "u1", blobUrl := "https://pub/uploads/u1/sketch.png",
    r2Key := some "uploads/u1/sketch.png", fileType := "image/png",
    processType := some "magic-diagram", originalName := "sketch.png",
    status := "pending", textContent := none, generatedImageUrl := none,
    tokensUsed := 0, error := none, createdAt := 0, updatedAt := 0 }

/-- A pending standard-OCR image record. -/
def fileOcr : UploadedFile :=
  { id := 4, userId := "u1", blobUrl := "https://pub/uploads/u1/scan.jpg",
    r2Key := some "uploads/u1/scan.jpg", fileType := "image/jpeg",
    processType := some "standard-ocr", originalName := "scan.jpg",
    status := "pending", textContent := none, generatedImageUrl := none,
    tokensUsed := 0, error := none, createdAt := 0, updatedAt := 0 }

/-- A pending zip archive submitted for standard OCR. -/
def fileZip : UploadedFile :=
  { id := 5, userId := "u1", blobUrl := "https://pub/uploads/u1/notes.zip",
    r2Key := some "uploads/u1/notes.zip", fileType := "application/zip",
    processType := some "standard-ocr", originalName := "notes.zip",
    status := "pending", textContent := none, generatedImageUrl := none,
    tokensUsed := 0, error := none, createdAt := 0, updatedAt := 0 }

/-- Database behaviour in which every write succeeds. -/
def dbOk : DbBehavior :=
  { claimFailure := none, commitFailure := none, meterFailure := false,
    fallbackFailure := false }

/-- Database behaviour in which only the metering call throws. -/
def dbMeterFail : DbBehavior :=
  { claimFailure := none, commitFailure := none, meterFailure := true,
    fallbackFailure := false }

/-- A 151-character text, one character over the preview limit. -/
def longText : String := String.mk (List.replicate 151 'a')

/-- A text-only shared item carrying `longText`. -/
def textItem : SharedFile :=
  { uri := none, mimeType := some "text/plain", name := some "note.txt",
    text := some longText }

/-- Fresh metadata for a queued item. -/
def pendingMeta : SyncMetadata :=
  { name := some "note.txt", mimeType := some "text/plain",
    status := "pending", error := none, lastAttempt := none,
    serverFileId := none, processedTextPreview := none, processedAt := none }

/-- A two-element sync queue whose items all have text content on disk. -/
def syncStateEx : SyncState :=
  { queueExists := true, queue := ["a", "b"], dirExists := fun _ => true,
    metadata := fun _ => pendingMeta,
    contentTxt := fun _ => some "hello world", binFiles := fun _ => [] }

/-- Upload outcome: every item's upload fails with a network error. -/
def outcomeErr : String → SyncOutcome :=
  fun _ => .errorResult (some "Network request failed")

/-- Status body of a completed upload. -/
def bodyEx : StatusBody :=
  { status := "completed", textContent := some "done", error := none }

/-- A status endpoint that 404s twice and then reports completion. -/
def respEx : Nat → PollEvent :=
  fun i => if i < 2 then .httpErr 404 else .okBody bodyEx

/-! ### Helper lemmas -/

lemma isPrefixOf_self_append (a b : List Char) : a.isPrefixOf (a ++ b) = true := by
  induction a with
  | nil => simp [List.isPrefixOf]
  | cons c t ih => simp [List.isPrefixOf, ih]

lemma startsWith_self_append (a b : String) : strStartsWith (a ++ b) a = true := by
  simp only [strStartsWith, String.data_append]
  exact isPrefixOf_self_append a.data b.data

lemma ocr_sentinel (msg : String) :
    strStartsWith ("Error processing image OCR: " ++ msg)
      "Error processing image OCR" = true := by
  have h : ("Error processing image OCR: " ++ msg) =
      "Error processing image OCR" ++ (": " ++ msg) := by
    rw [← String.append_assoc]
    congr 1
  rw [h]
  exact startsWith_self_append _ _

lemma strategyFailure_ok (env : WorkerEnv) (f : UploadedFile) (k : String)
    (hd : deriveR2Key f = .ok k) :
    strategyFailure env f = strategyFailureBody env f k := by
  unfold strategyFailure; rw [hd]

lemma strategyFailure_err (env : WorkerEnv) (f : UploadedFile) (e : String)
    (hd : deriveR2Key f = .error e) :
    strategyFailure env f = none := by
  unfold strategyFailure; rw [hd]

lemma processSingleFileRecord_ok (env : WorkerEnv) (f : UploadedFile)
    (k : String) (hd : deriveR2Key f = .ok k) :
    processSingleFileRecord env f = finalizeResult (dispatchExtract env f k) := by
  unfold processSingleFileRecord; rw [hd]

lemma processLoopBody_count (env : WorkerEnv) (db : DbBehavior) (now : Nat)
    (f : UploadedFile) :
    (processLoopBody env db now f).succeeded +
      (processLoopBody env db now f).errored = 1 := by
  simp only [processLoopBody]
  split
  · rfl
  · split
    · rfl
    · split
      · rfl
      · split <;> rfl

lemma sum_counts (outs : List RecordOutcome)
    (h : ∀ o ∈ outs, o.succeeded + o.errored = 1) :
    (outs.map RecordOutcome.succeeded).sum +
      (outs.map RecordOutcome.errored).sum = outs.length := by
  induction outs with
  | nil => simp
  | cons o t ih =>
    simp only [List.map_cons, List.sum_cons, List.length_cons]
    have h1 := h o (by simp)
    have h2 := ih (fun x hx => h x (by simp [hx]))
    omega


lemma processLoopBody_record_cases (env : WorkerEnv) (db : DbBehavior)
    (now : Nat) (f : UploadedFile) :
    (processLoopBody env db now f).record = f ∨
    (∃ msg, (processLoopBody env db now f).record = fallbackStep now msg f) ∨
    (processLoopBody env db now f).record = claimStep now f ∨
    (∃ msg, (processLoopBody env db now f).record =
      fallbackStep now msg (claimStep now f)) ∨
    (processLoopBody env db now f).record =
      commitStep now (processSingleFileRecord env f) (claimStep now f) := by
  simp only [processLoopBody]
  split
  · split
    · left; rfl
    · right; left; exact ⟨_, rfl⟩
  · split
    · split
      · right; right; left; rfl
      · right; right; right; left; exact ⟨_, rfl⟩
    · split
      · right; right; right; right; rfl
      · split
        · right; right; right; right; rfl
        · right; right; right; right; rfl

lemma dispatch_text_some (env : WorkerEnv) (f : UploadedFile) (k : String)
    (h : (dispatchExtract env f k).2.2.2 = none) :
    (dispatchExtract env f k).1.isSome = true := by
  unfold dispatchExtract at h ⊢
  cases hmb : isMagicBranch f with
  | true =>
    simp only [hmb, if_true] at h ⊢
    cases hc : env.diagramCall k f.originalName f.userId <;>
      simp_all [processMagicDiagram]
  | false =>
    simp only [hmb, Bool.false_eq_true, if_false] at h ⊢
    cases hob : isOcrBranch f with
    | true =>
      simp only [hob, if_true] at h ⊢
      cases hb : (f.blobUrl == "") with
      | true => simp_all
      | false =>
        simp only [hb, Bool.false_eq_true, if_false] at h ⊢
        cases hc : env.ocrCall f.blobUrl with
        | error msg => simp_all [processImageWithGPT4one, ocr_sentinel]
        | ok p =>
          rcases p with ⟨markdown, usage⟩
          simp only [processImageWithGPT4one, hc] at h ⊢
          split at h
          · simp_all
          · split at h <;> simp_all
    | false =>
      simp only [hob, Bool.false_eq_true, if_false] at h ⊢
      cases hpb : isPdfBranch f with
      | true => simp_all
      | false =>
        simp only [hpb, Bool.false_eq_true, if_false] at h ⊢
        cases htb : isTextBranch f with
        | true =>
          simp only [htb, if_true] at h ⊢
          cases hc : env.r2Download k <;> simp_all
        | false => simp_all

lemma extract_text_shape (env : WorkerEnv) (f : UploadedFile) :
    (processSingleFileRecord env f).textContent.isSome = true ∨
    ((processSingleFileRecord env f).textContent = none ∧
     (processSingleFileRecord env f).generatedImageUrl = none ∧
     (processSingleFileRecord env f).error.isSome = true) := by
  cases hd : deriveR2Key f with
  | error e =>
    right
    unfold processSingleFileRecord
    rw [hd]
    exact ⟨rfl, rfl, rfl⟩
  | ok k =>
    rw [processSingleFileRecord_ok env f k hd]
    unfold finalizeResult
    cases hq : (dispatchExtract env f k).2.2.2 with
    | some e => left; rfl
    | none => left; simpa using dispatch_text_some env f k hq

lemma pollForResults_eq_loop (resp : Nat → PollEvent) (fid : String)
    (maxA : Nat) :
    pollForResults resp fid false maxA = pollLoop resp fid maxA 0 0 maxA := by
  simp [pollForResults]

lemma pollLoop_404_step (resp : Nat → PollEvent) (fid : String)
    (maxA attempts reqs fuel : Nat) (hlt : attempts < maxA)
    (h : resp reqs = .httpErr 404) :
    pollLoop resp fid maxA attempts reqs (fuel + 1) =
      pollLoop resp fid maxA (attempts + 1) (reqs + 1) fuel := by
  simp [pollLoop, hlt, h]

lemma pollLoop_terminal_step (resp : Nat → PollEvent) (fid : String)
    (maxA attempts reqs fuel : Nat) (body : StatusBody)
    (hlt : attempts < maxA) (h : resp reqs = .okBody body)
    (hterm : body.status = "completed" ∨ body.status = "error") :
    pollLoop resp fid maxA attempts reqs (fuel + 1) =
      ({ status := body.status, textContent := body.textContent,
         error := body.error, fileId := fid }, reqs + 1) := by
  simp [pollLoop, hlt, h, hterm]

lemma pollLoop_all404 (resp : Nat → PollEvent) (fid : String) (maxA : Nat)
    (hall : ∀ i, resp i = .httpErr 404) :
    ∀ fuel attempts reqs, attempts + fuel = maxA →
      pollLoop resp fid maxA attempts reqs fuel =
        (timeoutResult fid, reqs + fuel) := by
  intro fuel
  induction fuel with
  | zero => intro attempts reqs h; simp [pollLoop]
  | succ n ih =>
    intro attempts reqs h
    rw [pollLoop_404_step resp fid maxA attempts reqs n (by omega) (hall reqs)]
    rw [ih (attempts + 1) (reqs + 1) (by omega)]
    have hn : reqs + 1 + n = reqs + (n + 1) := by omega
    rw [hn]

/-! ### Claim theorems -/

/-- C1 (amended): when the dispatched extraction strategy fails — any
exception or strategy-level error — `processSingleFileRecord` returns a
well-formed result with `status = error`, `generatedImageUrl = null`,
`tokensUsed = 0` and `error` set to the failure message, and it never
throws; however `textContent` is not null: it carries the bracketed
message `[Processing Error: <message>]`. -/
theorem extractor_failure_result (env : WorkerEnv) (f : UploadedFile)
    (m : String) (h : strategyFailure env f = some m) :
    processSingleFileRecord env f =
      { status := "error",
        textContent := some ("[Processing Error: " ++ m ++ "]"),
        generatedImageUrl := none, tokensUsed := 0, error := some m } := by
  cases hd : deriveR2Key f with
  | error e => rw [strategyFailure_err env f e hd] at h; exact Option.noConfusion h
  | ok k =>
    rw [strategyFailure_ok env f k hd] at h
    rw [processSingleFileRecord_ok env f k hd]
    unfold strategyFailureBody at h
    unfold dispatchExtract
    cases hmb : isMagicBranch f with
    | true =>
      simp only [hmb, if_true] at h ⊢
      cases hc : env.diagramCall k f.originalName f.userId with
      | error msg =>
        rw [hc] at h
        simp only [Option.some.injEq] at h
        subst h
        simp [processMagicDiagram, hc, finalizeResult]
      | ok url => rw [hc] at h; simp [processMagicDiagram, hc] at h
    | false =>
      simp only [hmb, Bool.false_eq_true, if_false] at h ⊢
      cases hob : isOcrBranch f with
      | true =>
        simp only [hob, if_true] at h ⊢
        cases hb : (f.blobUrl == "") with
        | true =>
          simp only [hb, if_true] at h ⊢
          simp only [Option.some.injEq] at h
          subst h
          simp [finalizeResult]
        | false =>
          simp only [hb, Bool.false_eq_true, if_false] at h ⊢
          cases hc : env.ocrCall f.blobUrl with
          | error msg =>
            rw [hc] at h
            simp only [Option.some.injEq] at h
            subst h
            simp [processImageWithGPT4one, hc, ocr_sentinel, finalizeResult]
          | ok p => rw [hc] at h; simp at h
      | false =>
        simp only [hob, Bool.false_eq_true, if_false] at h ⊢
        cases hpb : isPdfBranch f with
        | true =>
          simp only [hpb, if_true] at h ⊢
          simp only [Option.some.injEq] at h
          subst h
          simp [finalizeResult]
        | false =>
          simp only [hpb, Bool.false_eq_true, if_false] at h ⊢
          cases htb : isTextBranch f with
          | true =>
            simp only [htb, if_true] at h ⊢
            cases hc : env.r2Download k with
            | some bytes => rw [hc] at h; simp at h
            | none =>
              rw [hc] at h
              simp only [Option.some.injEq] at h
              subst h
              simp [finalizeResult]
          | false =>
            simp only [htb, Bool.false_eq_true, if_false] at h ⊢
            simp only [Option.some.injEq] at h
            subst h
            simp [finalizeResult]

/-- C1 counterexample: a plain-text record whose download fails has its
strategy fail, yet the returned `textContent` is not null, contradicting
the claimed `textContent = null`. -/
theorem extractor_failure_null_counterexample :
    (strategyFailure envFail fileText).isSome = true ∧
    (processSingleFileRecord envFail fileText).status = "error" ∧
    (processSingleFileRecord envFail fileText).textContent ≠ none := by
  decide

/-- C1 witness: the amended theorem applied to the failing download. -/
theorem extractor_failure_result_witness :
    processSingleFileRecord envFail fileText =
      { status := "error",
        textContent := some ("[Processing Error: " ++
          "Failed to download file from R2: uploads/u1/note.txt" ++ "]"),
        generatedImageUrl := none, tokensUsed := 0,
        error := some "Failed to download file from R2: uploads/u1/note.txt" } :=
  extractor_failure_result envFail fileText
    "Failed to download file from R2: uploads/u1/note.txt" (by decide)

/-- C3: the claim step is idempotent — claiming a pending record twice in
succession does not throw, leaves it `processing` with `error` cleared,
leaves all content fields unchanged, and the second invocation rewrites
nothing because the record is already observed as `processing`. -/
theorem claim_step_idempotent (t t' : Nat) (f : UploadedFile)
    (h : f.status = "pending") :
    claimStep t' (claimStep t f) = claimStep t f ∧
    (claimStep t f).status = "processing" ∧
    (claimStep t f).error = none ∧
    (claimStep t f).textContent = f.textContent ∧
    (claimStep t f).generatedImageUrl = f.generatedImageUrl ∧
    (claimStep t f).tokensUsed = f.tokensUsed := by
  simp [claimStep, h]

/-- C3 witness: the claim step applied twice to a concrete pending
record. -/
theorem claim_step_idempotent_witness :
    claimStep 2 (claimStep 1 fileText) = claimStep 1 fileText ∧
    (claimStep 1 fileText).status = "processing" ∧
    (claimStep 1 fileText).error = none ∧
    (claimStep 1 fileText).textContent = fileText.textContent ∧
    (claimStep 1 fileText).generatedImageUrl = fileText.generatedImageUrl ∧
    (claimStep 1 fileText).tokensUsed = fileText.tokensUsed :=
  claim_step_idempotent 1 2 fileText rfl

/-- C5: a `text/plain` or `text/markdown` record with a stored object key,
whatever its `processType`, is processed by downloading the stored bytes
and decoding them as UTF-8, with zero tokens and `status = completed` when
the download succeeds. -/
theorem text_utf8_roundtrip (env : WorkerEnv) (f : UploadedFile) (k : String)
    (bytes : List Nat)
    (hft : f.fileType = "text/plain" ∨ f.fileType = "text/markdown")
    (hk : f.r2Key = some k) (hk0 : k ≠ "")
    (hdl : env.r2Download k = some bytes) :
    processSingleFileRecord env f =
      { status := "completed", textContent := some (env.utf8Decode bytes),
        generatedImageUrl := none, tokensUsed := 0, error := none } := by
  have hkey : deriveR2Key f = .ok k := by
    simp [deriveR2Key, hk, optStrFalsy, hk0]
  have hst : strStartsWith (effFileType f) "image/" = false := by
    rcases hft with h | h <;> simp only [effFileType, h] <;> decide
  have hm : isMagicBranch f = false := by
    rw [isMagicBranch, hst, Bool.and_false]
  have ho : isOcrBranch f = false := by
    rw [isOcrBranch, hst, Bool.and_false]
  have hp : isPdfBranch f = false := by
    rcases hft with h | h <;> simp only [isPdfBranch, effFileType, h] <;> decide
  have ht : isTextBranch f = true := by
    rcases hft with h | h <;> simp only [isTextBranch, effFileType, h] <;> decide
  simp [processSingleFileRecord, hkey, dispatchExtract, hm, ho, hp, ht, hdl,
    finalizeResult]

/-- C5 witness: the concrete text record round-trips the stored bytes. -/
theorem text_utf8_roundtrip_witness :
    processSingleFileRecord envOk fileText =
      { status := "completed",
        textContent := some (envOk.utf8Decode [104, 105]),
        generatedImageUrl := none, tokensUsed := 0, error := none } :=
  text_utf8_roundtrip envOk fileText "uploads/u1/note.txt" [104, 105]
    (Or.inl rfl) rfl (by decide) rfl

/-- C6: an `application/zip` record with `processType = standard-ocr` (and
a stored object key) yields `status = error`, a `textContent` containing
the substring `Unsupported` and `tokensUsed = 0`. -/
theorem zip_unsupported_error (env : WorkerEnv) (f : UploadedFile)
    (k : String)
    (h1 : f.fileType = "application/zip")
    (h2 : f.processType = some "standard-ocr")
    (hk : f.r2Key = some k) (hk0 : k ≠ "") :
    (processSingleFileRecord env f).status = "error" ∧
    (processSingleFileRecord env f).tokensUsed = 0 ∧
    ∃ pre post,
      (processSingleFileRecord env f).textContent =
        some (pre ++ "Unsupported" ++ post) := by
  have hkey : deriveR2Key f = .ok k := by
    simp [deriveR2Key, hk, optStrFalsy, hk0]
  have hpt : effProcessType f = "standard-ocr" := by
    simp [effProcessType, strOrDefault, h2]
  have hm : isMagicBranch f = false := by
    simp only [isMagicBranch, hpt, effFileType, h1]; decide
  have ho : isOcrBranch f = false := by
    simp only [isOcrBranch, hpt, effFileType, h1]; decide
  have hp : isPdfBranch f = false := by
    simp only [isPdfBranch, effFileType, h1]; decide
  have ht : isTextBranch f = false := by
    simp only [isTextBranch, effFileType, h1]; decide
  have hres : processSingleFileRecord env f =
      { status := "error",
        textContent := some
          "[Processing Error: Unsupported file type/processType: application/zip / standard-ocr]",
        generatedImageUrl := none, tokensUsed := 0,
        error := some
          "Unsupported file type/processType: application/zip / standard-ocr" } := by
    simp only [processSingleFileRecord_ok env f k hkey, dispatchExtract, hm, ho,
      hp, ht, Bool.false_eq_true, if_false, finalizeResult, effFileType, h1,
      effProcessType, strOrDefault, h2]
    decide
  refine ⟨by rw [hres], by rw [hres], "[Processing Error: ",
    " file type/processType: application/zip / standard-ocr]",
    by rw [hres]; decide⟩

/-- C6 witness: the concrete zip record. -/
theorem zip_unsupported_error_witness :
    (processSingleFileRecord envOk fileZip).status = "error" ∧
    (processSingleFileRecord envOk fileZip).tokensUsed = 0 ∧
    ∃ pre post,
      (processSingleFileRecord envOk fileZip).textContent =
        some (pre ++ "Unsupported" ++ post) :=
  zip_unsupported_error envOk fileZip "uploads/u1/notes.zip" rfl rfl rfl
    (by decide)

/-- C10: a worker run over a non-empty fetched batch counts every record
exactly once, so the reported succeeded plus error counts equal the
attempted count. -/
theorem run_summary_counts (env : WorkerEnv) (dbOf : Nat → DbBehavior)
    (now : Nat) (files : List UploadedFile) (_h : 0 < files.length) :
    (runWorkerPass env dbOf now files).succeeded +
      (runWorkerPass env dbOf now files).errored =
      (runWorkerPass env dbOf now files).attempted := by
  simp only [runWorkerPass]
  rw [sum_counts]
  · simp
  · intro o ho
    obtain ⟨f, _, rfl⟩ := List.mem_map.mp ho
    exact processLoopBody_count env (dbOf f.id) now f

/-- C10 witness: a one-record run. -/
theorem run_summary_counts_witness :
    (runWorkerPass envOk (fun _ => dbOk) 1 [fileText]).succeeded +
      (runWorkerPass envOk (fun _ => dbOk) 1 [fileText]).errored =
      (runWorkerPass envOk (fun _ => dbOk) 1 [fileText]).attempted :=
  run_summary_counts envOk (fun _ => dbOk) 1 [fileText] (by decide)

/-- C2 (amended): once a fetched record's status is terminal after a worker
pass, at least one — not exactly one — of {`textContent` set,
`generatedImageUrl` set, both null with `error` set} holds (reading
"meaningfully set" as non-null). -/
theorem terminal_record_at_least_one (env : WorkerEnv) (db : DbBehavior)
    (now : Nat) (f : UploadedFile)
    (hst : f.status = "pending" ∨ f.status = "processing")
    (hterm : terminalStatus (processLoopBody env db now f).record = true) :
    (textSet (processLoopBody env db now f).record ||
     imageSet (processLoopBody env db now f).record ||
     nullWithError (processLoopBody env db now f).record) = true := by
  have hcl : (claimStep now f).status = "processing" := by
    rcases hst with h | h <;> simp [claimStep, h]
  rcases processLoopBody_record_cases env db now f with
    hr | ⟨msg, hr⟩ | hr | ⟨msg, hr⟩ | hr
  · rw [hr] at hterm
    rcases hst with h | h <;> simp [terminalStatus, h] at hterm
  · rw [hr]
    simp only [fallbackStep, textSet, imageSet, nullWithError]
    cases f.textContent <;> cases f.generatedImageUrl <;> simp
  · rw [hr] at hterm
    simp [terminalStatus, hcl] at hterm
  · rw [hr]
    simp only [fallbackStep, claimStep, textSet, imageSet, nullWithError]
    split <;> (cases f.textContent <;> cases f.generatedImageUrl <;> simp)
  · rw [hr]
    simp only [commitStep, textSet, imageSet, nullWithError]
    rcases extract_text_shape env f with h | ⟨h1, h2, h3⟩
    · simp [h]
    · simp [h1, h2, h3]

/-- C2 counterexample: a successfully completed magic-diagram record ends
terminal with both `textContent` (the placeholder link) and
`generatedImageUrl` set, so exactly-one fails. -/
theorem terminal_exactly_one_counterexample :
    terminalStatus (processLoopBody envOk dbOk 1 fileDiagram).record = true ∧
    exactlyOneOf (textSet (processLoopBody envOk dbOk 1 fileDiagram).record)
      (imageSet (processLoopBody envOk dbOk 1 fileDiagram).record)
      (nullWithError (processLoopBody envOk dbOk 1 fileDiagram).record) =
      false := by
  decide

/-- C2 witness: the amended at-least-one property at the concrete
diagram record. -/
theorem terminal_record_at_least_one_witness :
    (textSet (processLoopBody envOk dbOk 1 fileDiagram).record ||
     imageSet (processLoopBody envOk dbOk 1 fileDiagram).record ||
     nullWithError (processLoopBody envOk dbOk 1 fileDiagram).record) = true :=
  terminal_record_at_least_one envOk dbOk 1 fileDiagram (Or.inl rfl) (by decide)

/-- C4: when the claim and commit writes succeed, a record committed
`completed` with `N > 0` tokens triggers exactly one metering invocation
with exactly `N` for the record's user; a record committed `error` or with
zero tokens triggers none; and this — including the record's committed
`completed` status — holds whether or not the metering call itself
throws. -/
theorem metering_exactly_once (env : WorkerEnv) (db : DbBehavior) (now : Nat)
    (f : UploadedFile) (hclaim : db.claimFailure = none)
    (hcommit : db.commitFailure = none) :
    ((processSingleFileRecord env f).status = "completed" →
      0 < (processSingleFileRecord env f).tokensUsed →
      (processLoopBody env db now f).meterCalls =
        [(f.userId, (processSingleFileRecord env f).tokensUsed)] ∧
      (processLoopBody env db now f).record.status = "completed") ∧
    ((processSingleFileRecord env f).status = "error" ∨
      (processSingleFileRecord env f).tokensUsed = 0 →
      (processLoopBody env db now f).meterCalls = []) := by
  have hno : ¬ (f.status ≠ "processing" ∧ (db.claimFailure).isSome = true) := by
    simp [hclaim]
  simp only [processLoopBody, if_neg hno, hcommit]
  constructor
  · intro h1 h2
    rw [if_pos ⟨h1, h2⟩]
    exact ⟨rfl, by simp [commitStep, h1]⟩
  · intro h
    rw [if_neg ?_]
    · split <;> rfl
    · rcases h with h | h
      · rintro ⟨hc, _⟩; rw [h] at hc; exact absurd hc (by decide)
      · rintro ⟨_, ht⟩; omega

/-- C4 witness: the OCR record metered once with 42 tokens, its committed
status untouched although the metering call throws. -/
theorem metering_exactly_once_witness :
    (processLoopBody envOk dbMeterFail 5 fileOcr).meterCalls =
      [(fileOcr.userId, (processSingleFileRecord envOk fileOcr).tokensUsed)] ∧
    (processLoopBody envOk dbMeterFail 5 fileOcr).record.status = "completed" :=
  (metering_exactly_once envOk dbMeterFail 5 fileOcr rfl rfl).1
    (by decide) (by decide)

/-- C7: draining the head of a non-empty sync queue marks its metadata
`error` with the reason and the last-attempt timestamp and moves the entry
to the tail when the upload fails (error result or exception); a successful
upload marks it `completed` and removes it from the queue. -/
theorem drain_failure_rotates_queue (outcomeOf : String → SyncOutcome)
    (now : Nat) (s : SyncState) (localId : String) (rest : List String)
    (hqe : s.queueExists = true)
    (hq : s.queue = localId :: rest)
    (hdir : s.dirExists localId = true)
    (hmeta : (s.metadata localId).status ≠ "completed")
    (hcontent : ¬ (s.contentTxt localId = none ∧ s.binFiles localId = [])) :
    (∀ msg, outcomeOf localId = .errorResult msg →
      (processSyncQueue outcomeOf now s).1.queue = rest ++ [localId] ∧
      ((processSyncQueue outcomeOf now s).1.metadata localId).status =
        "error" ∧
      ((processSyncQueue outcomeOf now s).1.metadata localId).error =
        some (msg.getD "Unknown processing error") ∧
      ((processSyncQueue outcomeOf now s).1.metadata localId).lastAttempt =
        some now) ∧
    (∀ m, outcomeOf localId = .thrown m →
      (processSyncQueue outcomeOf now s).1.queue = rest ++ [localId] ∧
      ((processSyncQueue outcomeOf now s).1.metadata localId).status =
        "error" ∧
      ((processSyncQueue outcomeOf now s).1.metadata localId).error = some m ∧
      ((processSyncQueue outcomeOf now s).1.metadata localId).lastAttempt =
        some now) ∧
    (∀ fid txt, outcomeOf localId = .completed fid txt →
      (processSyncQueue outcomeOf now s).1.queue = rest ∧
      ((processSyncQueue outcomeOf now s).1.metadata localId).status =
        "completed") := by
  refine ⟨?_, ?_, ?_⟩
  · intro msg hout
    simp [processSyncQueue, hqe, hq, hdir, hmeta, hcontent, hout, writeMetadata]
  · intro m hout
    simp [processSyncQueue, hqe, hq, hdir, hmeta, hcontent, hout, writeMetadata]
  · intro fid txt hout
    simp [processSyncQueue, hqe, hq, hdir, hmeta, hcontent, hout, writeMetadata]

/-- C7 witness: a concrete two-item queue whose head upload fails is
rotated to the tail with error metadata. -/
theorem drain_failure_rotates_queue_witness :
    (processSyncQueue outcomeErr 9 syncStateEx).1.queue = ["b"] ++ ["a"] ∧
    ((processSyncQueue outcomeErr 9 syncStateEx).1.metadata "a").status =
      "error" ∧
    ((processSyncQueue outcomeErr 9 syncStateEx).1.metadata "a").error =
      some ((some "Network request failed").getD "Unknown processing error") ∧
    ((processSyncQueue outcomeErr 9 syncStateEx).1.metadata "a").lastAttempt =
      some 9 :=
  (drain_failure_rotates_queue outcomeErr 9 syncStateEx "a" ["b"]
    rfl rfl rfl (by decide) (by decide)).1 (some "Network request failed") rfl

set_option maxRecDepth 10000 in
/-- C8 counterexample: the preview of a 151-character text is the 150
characters plus an ellipsis, which is not a prefix of the original. -/
theorem preview_not_a_prefix :
    (generatePreview true "previews/" "id1" textItem).previewText =
      some (generateTextPreview longText) ∧
    150 < longText.length ∧
    strStartsWith longText (generateTextPreview longText) = false := by
  decide

/-- C8 (amended): the preview of a text-only shared item equals the text
when it fits the 150-character limit, and otherwise is a prefix of the
original text followed by the three-character ellipsis. -/
theorem preview_ellipsis_shape (file : SharedFile) (t : String)
    (hta : file.text = some t) (ht0 : t ≠ "")
    (thumbOk : Bool) (pd lid : String) :
    (generatePreview thumbOk pd lid file).previewText =
      some (generateTextPreview t) ∧
    (t.length ≤ 150 → generateTextPreview t = t) ∧
    (150 < t.length → ∃ p rest, t.data = p ++ rest ∧
      (generateTextPreview t).data = p ++ "...".data) := by
  refine ⟨?_, ?_, ?_⟩
  · simp [generatePreview, hta, optStrFalsy, ht0]
  · intro h
    have hl : t.data.length = t.length := rfl
    unfold generateTextPreview generateTextPreviewL
    rw [if_pos (by omega)]
  · intro h
    have hl : t.data.length = t.length := rfl
    unfold generateTextPreview generateTextPreviewL
    rw [if_neg (by omega)]
    exact ⟨t.data.take (previewCut t.data 150),
      t.data.drop (previewCut t.data 150),
      (List.take_append_drop _ _).symm, rfl⟩

/-- C8 witness: the amended shape at the concrete 151-character item. -/
theorem preview_ellipsis_shape_witness :
    (generatePreview true "previews/" "id1" textItem).previewText =
      some (generateTextPreview longText) ∧
    (longText.length ≤ 150 → generateTextPreview longText = longText) ∧
    (150 < longText.length → ∃ p rest, longText.data = p ++ rest ∧
      (generateTextPreview longText).data = p ++ "...".data) :=
  preview_ellipsis_shape textItem longText rfl (by decide)
    true "previews/" "id1"

/-- C9: a status endpoint that 404s on the first two polls and then reports
completion makes `pollForResults` issue exactly 3 requests and return the
completed payload; and an endpoint that 404s forever exhausts the 30
attempts and returns the timeout error result after 30 requests. -/
theorem poll_three_requests_and_timeout (resp : Nat → PollEvent)
    (fid : String) (body : StatusBody)
    (h0 : resp 0 = .httpErr 404) (h1 : resp 1 = .httpErr 404)
    (h2 : resp 2 = .okBody body) (hc : body.status = "completed") :
    pollForResults resp fid false =
      ({ status := "completed", textContent := body.textContent,
         error := body.error, fileId := fid }, 3) ∧
    (∀ resp' : Nat → PollEvent, (∀ i, resp' i = .httpErr 404) →
      pollForResults resp' fid false = (timeoutResult fid, 30)) := by
  constructor
  · rw [pollForResults_eq_loop resp fid 30]
    have s1 : pollLoop resp fid 30 0 0 30 = pollLoop resp fid 30 1 1 29 :=
      pollLoop_404_step resp fid 30 0 0 29 (by omega) h0
    have s2 : pollLoop resp fid 30 1 1 29 = pollLoop resp fid 30 2 2 28 :=
      pollLoop_404_step resp fid 30 1 1 28 (by omega) h1
    have s3 : pollLoop resp fid 30 2 2 28 =
        ({ status := body.status, textContent := body.textContent,
           error := body.error, fileId := fid }, 3) :=
      pollLoop_terminal_step resp fid 30 2 2 27 body (by omega) h2 (Or.inl hc)
    rw [s1, s2, s3, hc]
  · intro resp' hall
    rw [pollForResults_eq_loop resp' fid 30]
    have hstuck := pollLoop_all404 resp' fid 30 hall 30 0 0 (by omega)
    simpa using hstuck

/-- C9 witness: the concrete 404-404-completed endpoint. -/
theorem poll_three_requests_and_timeout_witness :
    pollForResults respEx "42" false =
      ({ status := "completed", textContent := bodyEx.textContent,
         error := bodyEx.error, fileId := "42" }, 3) :=
  (poll_three_requests_and_timeout respEx "42" bodyEx rfl rfl rfl rfl).1

end NoteCompanion
